import Mathlib

/-!
Verification of the sync core of the Fair Play card manager: identity
assignment (src/utils/cardId.ts), the IndexedDB persistence wrapper
(src/utils/db.ts), the UUID backfill migration (src/utils/migrateUuids.ts),
the merge engine and sync orchestrator (src/composables/useGoogleSheetsSync.ts)
and the sync session store (src/stores/useSyncStore.ts).

Host primitives (fetch, JSON.parse, Date parsing, setTimeout, crypto randomness)
are supplied as explicit arguments so every repository function becomes a pure,
executable Lean definition.
-/

namespace FairPlay

/-- CardAssignment from src/types/index.ts: the four-valued assignment enum. -/
inductive CardAssignment where
  | unassigned
  | player1
  | player2
  | shared
  deriving DecidableEq, Repr

/-- INFORMATIONAL_CARDS from src/utils/cardId.ts lines 9-12: the denylist of
informational entries that never receive an id or sync. -/
def INFORMATIONAL_CARDS : List String :=
  ["CONCIEVE. PLAN. EXECUTE.", "MINIMUM STANDARD OF CARE"]

/-- shouldCardHaveId from src/utils/cardId.ts lines 32-36. -/
def shouldCardHaveId (cardName : String) : Bool :=
  !(INFORMATIONAL_CARDS.contains cardName)

/-- assignmentToInteger from src/utils/cardId.ts lines 43-56 (the default switch
arm returning 0 is unreachable: all four enum values are matched). -/
def assignmentToInteger : CardAssignment → Int
  | .unassigned => 0
  | .player1 => 1
  | .player2 => 2
  | .shared => 3

/-- integerToAssignment from src/utils/cardId.ts lines 63-76: unknown integers
decode to unassigned. -/
def integerToAssignment (value : Int) : CardAssignment :=
  if value = 0 then .unassigned
  else if value = 1 then .player1
  else if value = 2 then .player2
  else if value = 3 then .shared
  else .unassigned

/-- The runtime card record stored in the IndexedDB cards store: the CardData
interface of src/types/index.ts plus the id field that db.ts callers
(useGoogleSheetsSync.ts, migrateUuids.ts, data.ts) read and pass on these
records. id and lastUpdated may be absent (undefined). -/
structure CardData where
  cardName : String
  id : Option String := none
  assignment : CardAssignment := .unassigned
  notes : String := ""
  trimmed : Bool := false
  lastUpdated : Option String := none
  deriving DecidableEq, Repr

/-- A sheet row (GoogleSheetCardData) with the fields that syncToSheet builds
(useGoogleSheetsSync.ts lines 58-69) and mergeCardData reads: cardId, cardName,
assignment code, trimmed code, lastUpdated. -/
structure GoogleSheetCardData where
  cardId : String
  cardName : String
  assignment : Int
  trimmed : Int
  lastUpdated : String
  deriving DecidableEq, Repr

/-- MergeStrategy (src/types/index.ts): the strategy strings "newer-wins" and
"use-sheet" accepted by mergeCardDataWithPreference. -/
inductive MergeStrategy where
  | newerWins
  | useSheet
  deriving DecidableEq, Repr

/-- JS truthiness of the optional id field: undefined and the empty string are
falsy, every other string is truthy. -/
def idTruthy : Option String → Bool
  | none => false
  | some s => !(s == "")

/-- JS expression notes || "" (useGoogleSheetsSync.ts lines 182 and 240): the
empty string is falsy, so this is the identity on strings. -/
def notesOr (s : String) : String := if s = "" then "" else s

/-- Models localCard.lastUpdated ? new Date(localCard.lastUpdated).getTime() : 0
(useGoogleSheetsSync.ts lines 172-174): an absent or empty (falsy) local
timestamp counts as epoch zero. parseTime is the host date parse. -/
def localTimeOf (parseTime : String → Int) : Option String → Int
  | none => 0
  | some s => if s = "" then 0 else parseTime s

/-- Models the Map built by localCards.forEach(set) and queried with get
(useGoogleSheetsSync.ts lines 153-156): the last card in the list with the
given name wins. -/
def lookupByName (cards : List CardData) (name : String) : Option CardData :=
  cards.foldl (fun acc c => if c.cardName = name then some c else acc) none

/-- Body of the sheet loop of mergeCardData (useGoogleSheetsSync.ts lines
166-204): merge one sheet row against its optional local match. -/
def mergeRow (parseTime : String → Int) (sheetCard : GoogleSheetCardData) :
    Option CardData → CardData
  | some localCard =>
    if localTimeOf parseTime localCard.lastUpdated < parseTime sheetCard.lastUpdated then
      { cardName := sheetCard.cardName
        id := some sheetCard.cardId
        assignment := integerToAssignment sheetCard.assignment
        notes := notesOr localCard.notes
        trimmed := sheetCard.trimmed == 1
        lastUpdated := some sheetCard.lastUpdated }
    else
      { localCard with id := some sheetCard.cardId }
  | none =>
    { cardName := sheetCard.cardName
      id := some sheetCard.cardId
      assignment := integerToAssignment sheetCard.assignment
      notes := ""
      trimmed := sheetCard.trimmed == 1
      lastUpdated := some sheetCard.lastUpdated }

/-- mergeCardData from useGoogleSheetsSync.ts lines 149-214 (standard strategy,
newer wins), parameterized by the host timestamp parse new Date(s).getTime().
The first loop pushes one merged entity per sheet row in order; the second
appends the local cards whose name is absent from the sheet. -/
def mergeCardData (parseTime : String → Int) (sheetData : List GoogleSheetCardData)
    (localCards : List CardData) : List CardData :=
  (sheetData.map fun sheetCard =>
      mergeRow parseTime sheetCard (lookupByName localCards sheetCard.cardName)) ++
    localCards.filter fun localCard =>
      !(sheetData.any fun sheetCard => sheetCard.cardName == localCard.cardName)

/-- The entity built for one sheet row in the use-sheet branch of
mergeCardDataWithPreference (useGoogleSheetsSync.ts lines 234-243). -/
def useSheetRow (localCards : List CardData) (sheetCard : GoogleSheetCardData) :
    CardData :=
  { cardName := sheetCard.cardName
    id := some sheetCard.cardId
    assignment := integerToAssignment sheetCard.assignment
    notes := match lookupByName localCards sheetCard.cardName with
      | some localCard => notesOr localCard.notes
      | none => ""
    trimmed := sheetCard.trimmed == 1
    lastUpdated := some sheetCard.lastUpdated }

/-- mergeCardDataWithPreference from useGoogleSheetsSync.ts lines 219-261: the
use-sheet strategy takes the sheet unconditionally (notes still from the local
match), any other strategy falls back to the standard merge. -/
def mergeCardDataWithPreference (parseTime : String → Int)
    (sheetData : List GoogleSheetCardData) (localCards : List CardData)
    (strategy : MergeStrategy) : List CardData :=
  match strategy with
  | .useSheet =>
    (sheetData.map (useSheetRow localCards)) ++
      localCards.filter fun localCard =>
        !(sheetData.any fun sheetCard => sheetCard.cardName == localCard.cardName)
  | .newerWins => mergeCardData parseTime sheetData localCards

/-- Days from 1970-01-01 to the Gregorian date y-m-d (the standard civil-date
algorithm specialized to years at least 1970, so every intermediate value is a
natural number). Used only to model the host date parse. -/
def daysFromCivil (y m d : Nat) : Int :=
  let yy : Nat := if m ≤ 2 then y - 1 else y
  let era : Nat := yy / 400
  let yoe : Nat := yy - era * 400
  let mp : Nat := (m + 9) % 12
  let doy : Nat := (153 * mp + 2) / 5 + d - 1
  let doe : Nat := yoe * 365 + yoe / 4 - yoe / 100 + doy
  (era * 146097 + doe : Int) - 719468

/-- Decimal value of a digit character list (most significant first). -/
def digitsToNat (cs : List Char) : Nat :=
  cs.foldl (fun acc c => acc * 10 + (c.toNat - 48)) 0

/-- Modelled host function: new Date(s).getTime() (ECMAScript Date.parse)
restricted to UTC ISO-8601 strings of the shape YYYY-MM-DDTHH:MM:SSZ with a
year of at least 1970, returning epoch milliseconds. The repository code
consumes timestamps only through this parse, which the merge functions take as
an explicit parameter; this concrete instance serves the scenario witnesses. -/
def parseIsoZ (s : String) : Int :=
  let cs := s.data
  let y := digitsToNat (cs.take 4)
  let mo := digitsToNat ((cs.drop 5).take 2)
  let d := digitsToNat ((cs.drop 8).take 2)
  let h := digitsToNat ((cs.drop 11).take 2)
  let mi := digitsToNat ((cs.drop 14).take 2)
  let sec := digitsToNat ((cs.drop 17).take 2)
  ((((daysFromCivil y mo d) * 24 + h) * 60 + mi) * 60 + sec) * 1000

/-- createDefaultCardData from src/utils/db.ts lines 35-42: the default record
carries no id and no lastUpdated. -/
def createDefaultCardData (cardName : String) : CardData :=
  { cardName := cardName, assignment := .unassigned, notes := "", trimmed := false }

/-- store.get(key) on the IndexedDB cards store (keyPath cardName, unique). -/
def storeGet (store : List CardData) (cardName : String) : Option CardData :=
  store.find? (fun c => c.cardName == cardName)

/-- store.put(value) on the cards store: replace the record with the same key,
else append a new record. -/
def storePut (store : List CardData) (c : CardData) : List CardData :=
  if store.any (fun x => x.cardName == c.cardName) then
    store.map (fun x => if x.cardName == c.cardName then c else x)
  else
    store ++ [c]

/-- getOrCreateCardData from src/utils/db.ts lines 50-62. -/
def getOrCreateCardData (store : List CardData) (cardName : String) : CardData :=
  match storeGet store cardName with
  | some c => c
  | none => createDefaultCardData cardName

/-- The field bag callers pass to saveCardData: the sync persist step passes
id, assignment, notes and trimmed; the UUID migration passes id alone. An
absent field models undefined. -/
structure SaveFields where
  id : Option String := none
  assignment : Option CardAssignment := none
  notes : Option String := none
  trimmed : Option Bool := none
  deriving DecidableEq, Repr

/-- saveCardData from src/utils/db.ts lines 178-203, with the current time as
an explicit argument. The body copies assignment, notes and trimmed onto the
existing record when each is defined and stamps lastUpdated; it contains no
branch for the id field, so a passed id is dropped. -/
def saveCardData (now : String) (store : List CardData) (cardName : String)
    (fields : SaveFields) : List CardData :=
  let d0 := getOrCreateCardData store cardName
  let d1 := match fields.assignment with
    | some a => { d0 with assignment := a }
    | none => d0
  let d2 := match fields.notes with
    | some n => { d1 with notes := n }
    | none => d1
  let d3 := match fields.trimmed with
    | some t => { d2 with trimmed := t }
    | none => d2
  storePut store { d3 with lastUpdated := some now }

/-- The fullSync persist step (useGoogleSheetsSync.ts lines 283-291): upsert
every merged entity into the cards store by name through saveCardData, passing
its id, assignment, notes and trimmed fields. -/
def persistMerged (now : String) (store : List CardData)
    (mergedCards : List CardData) : List CardData :=
  mergedCards.foldl
    (fun st c =>
      saveCardData now st c.cardName
        { id := c.id, assignment := some c.assignment, notes := some c.notes,
          trimmed := some c.trimmed })
    store

/-- migrateCardsToIncludeUuids from src/utils/migrateUuids.ts lines 14-29, with
the host UUID generator generateCardId supplied as a stream of fresh ids and
the current time as an argument. Iterates over a snapshot of getAllCards and
returns the updated count together with the resulting store. -/
def migrateCardsToIncludeUuids (now : String) (freshIds : Nat → String)
    (store : List CardData) : Nat × List CardData :=
  store.foldl
    (fun acc card =>
      if shouldCardHaveId card.cardName && !(idTruthy card.id) then
        (acc.1 + 1,
          saveCardData now acc.2 card.cardName { id := some (freshIds acc.1) })
      else acc)
    (0, store)

/-- needsUuidMigration from src/utils/migrateUuids.ts lines 35-40. -/
def needsUuidMigration (store : List CardData) : Bool :=
  store.any (fun card => shouldCardHaveId card.cardName && !(idTruthy card.id))

/-- Minimal JSON value model for the duck-typed endpoint responses. -/
inductive Json where
  | null
  | bool (b : Bool)
  | num (n : Int)
  | str (s : String)
  | arr (elems : List Json)
  | obj (fields : List (String × Json))
  deriving Repr

/-- The parts of a fetch Response the sync code inspects. -/
structure HttpResp where
  status : Nat
  statusText : String
  contentType : String
  bodyText : String
  deriving DecidableEq, Repr

/-- response.ok of the fetch API: status in the range 200-299. -/
def HttpResp.respOk (r : HttpResp) : Bool := 200 ≤ r.status && r.status ≤ 299

/-- Does pat occur as a contiguous run inside the character list? -/
def hasInfixChars (pat : List Char) : List Char → Bool
  | [] => pat.isEmpty
  | c :: rest => pat.isPrefixOf (c :: rest) || hasInfixChars pat rest

/-- contentType.includes(pat): substring containment over the character
sequence (the JS String includes method). -/
def includesSubstr (s pat : String) : Bool := hasInfixChars pat.data s.data

/-- responseText.trim().startsWith("<") (useGoogleSheetsSync.ts line 120):
after stripping leading whitespace, the first character is a left angle
bracket. Trailing trim cannot affect a startsWith check. -/
def trimmedStartsWithLt (s : String) : Bool :=
  match s.data.dropWhile Char.isWhitespace with
  | [] => false
  | c :: _ => c == '<'

/-- The message thrown when the Google Sheet URL is not configured
(useGoogleSheetsSync.ts lines 36 and 94). -/
def urlNotConfiguredMsg : String := "Google Sheet URL not configured"

/-- The distinct misconfiguration message thrown when the GET response is HTML
instead of JSON (useGoogleSheetsSync.ts lines 121-124). -/
def htmlInsteadOfJsonMsg : String :=
  "Received HTML instead of JSON. Please ensure your Google Apps Script web app is configured to return JSON. The script should use `ContentService.createTextOutput(JSON.stringify(data)).setMimeType(ContentService.MimeType.JSON)` for GET requests."

/-- syncFromSheet from useGoogleSheetsSync.ts lines 92-144, with the host fetch
outcome (rejection or a Response) and JSON.parse supplied as arguments. On
success it returns the elements of the parsed JSON array. -/
def syncFromSheet (parseJson : String → Option Json) (url : String)
    (fetchResult : Except String HttpResp) : Except String (List Json) :=
  if url = "" then .error urlNotConfiguredMsg
  else
    match fetchResult with
    | .error e => .error e
    | .ok response =>
      if !response.respOk then
        .error ("Failed to sync from sheet: " ++ toString response.status ++ " "
          ++ response.statusText ++ ". " ++ response.bodyText)
      else if includesSubstr response.contentType "text/html"
          || trimmedStartsWithLt response.bodyText then
        .error htmlInsteadOfJsonMsg
      else
        match parseJson response.bodyText with
        | none =>
          .error ("Failed to parse response as JSON. The response may be HTML or invalid JSON. Response preview: "
            ++ String.mk (response.bodyText.data.take 200))
        | some (.arr elems) => .ok elems
        | some _ => .error "Invalid response from sheet: expected array"

/-- The fields of a cardsStore card that syncToSheet reads for assignment and
trimmed status (useGoogleSheetsSync.ts lines 52-66). -/
structure CardView where
  cardName : String
  assignment : CardAssignment
  trimmed : Bool
  deriving DecidableEq, Repr

/-- Models the Map built from cardsStore.cards (useGoogleSheetsSync.ts lines
53-55): the last card in the list with the given name wins. -/
def lookupCardView (cards : List CardView) (name : String) : Option CardView :=
  cards.foldl (fun acc c => if c.cardName = name then some c else acc) none

/-- The sheet row built for one stored card (useGoogleSheetsSync.ts lines
58-69): assignment and trimmed come from the store card when one matches, else
from the stored record; a falsy lastUpdated is replaced by the current time. -/
def toSheetRow (storeCards : List CardView) (now : String) (cardData : CardData) :
    GoogleSheetCardData :=
  { cardId := cardData.id.getD ""
    cardName := cardData.cardName
    assignment := match lookupCardView storeCards cardData.cardName with
      | some card => assignmentToInteger card.assignment
      | none => assignmentToInteger cardData.assignment
    trimmed := match lookupCardView storeCards cardData.cardName with
      | some card => if card.trimmed then 1 else 0
      | none => if cardData.trimmed then 1 else 0
    lastUpdated := match cardData.lastUpdated with
      | some s => if s = "" then now else s
      | none => now }

/-- Outcome of a push: the payload sent to the endpoint (none when no network
request was made at all) and the result the caller observes. -/
structure PushResult where
  sentPayload : Option (List GoogleSheetCardData)
  outcome : Except String Unit
  deriving Repr

/-- syncToSheet from useGoogleSheetsSync.ts lines 34-87, with the stored cards
(getAllCards), the cardsStore card list, the current time and the host POST
outcome as arguments. Cards are filtered to those with a truthy id that pass
shouldCardHaveId; an empty filter result returns early with no request. -/
def syncToSheet (url : String) (allCardData : List CardData)
    (storeCards : List CardView) (now : String)
    (postResult : Except String HttpResp) : PushResult :=
  if url = "" then { sentPayload := none, outcome := .error urlNotConfiguredMsg }
  else
    let cardsToSync := allCardData.filter fun cardData =>
      idTruthy cardData.id && shouldCardHaveId cardData.cardName
    if cardsToSync.isEmpty then { sentPayload := none, outcome := .ok () }
    else
      let sheetData := cardsToSync.map (toSheetRow storeCards now)
      match postResult with
      | .error e => { sentPayload := some sheetData, outcome := .error e }
      | .ok response =>
        if !response.respOk then
          { sentPayload := some sheetData,
            outcome := .error ("Failed to sync to sheet: " ++ toString response.status
              ++ " " ++ response.statusText ++ ". " ++ response.bodyText) }
        else { sentPayload := some sheetData, outcome := .ok () }

/-- The sync session state of src/stores/useSyncStore.ts (googleSheetUrl,
isSyncing, error, hasSyncedBefore, lastSyncTime). -/
structure SyncSession where
  isSyncing : Bool
  error : Option String
  googleSheetUrl : String
  hasSyncedBefore : Bool
  lastSyncTime : Option String
  deriving DecidableEq, Repr

/-- startSync from useSyncStore.ts lines 69-72. -/
def startSync (s : SyncSession) : SyncSession :=
  { s with isSyncing := true, error := none }

/-- finishSync from useSyncStore.ts lines 74-81. -/
def finishSync (now : String) (s : SyncSession) : SyncSession :=
  { s with isSyncing := false, lastSyncTime := some now, hasSyncedBefore := true }

/-- setError from useSyncStore.ts lines 83-85. -/
def setError (msg : Option String) (s : SyncSession) : SyncSession :=
  { s with error := msg }

/-- The host-supplied outcomes a full sync run consumes: JSON.parse, the
duck-typed cast of a JSON array element to a GoogleSheetCardData record, the
timestamp parse, the GET fetch outcome, the reload of the card list
(useCardData().loadCards()), the POST fetch outcome, and the current time. -/
structure SyncWorld where
  parseJson : String → Option Json
  asSheetCard : Json → GoogleSheetCardData
  parseTime : String → Int
  getResult : Except String HttpResp
  reloadResult : Except String (List CardView)
  postResult : Except String HttpResp
  now : String

/-- Observable steps of a fullSync run, in execution order. -/
inductive SyncEvent where
  | pulled
  | savedMerged
  | reloaded
  | pushed
  deriving DecidableEq, Repr

/-- Everything a fullSync run leaves behind: the value returned or error
re-raised, the session state, the cards store, the cardsStore card list and
the steps that executed. -/
structure SyncOutcome where
  result : Except String Unit
  session : SyncSession
  store : List CardData
  storeCards : List CardView
  events : List SyncEvent
  deriving Repr

/-- The merged card list computed inside sync (useGoogleSheetsSync.ts lines
277-281): the explicit strategy routes through mergeCardDataWithPreference,
an absent strategy uses the standard merge. -/
def mergedCardsOf (w : SyncWorld) (strategy : Option MergeStrategy)
    (localCards : List CardData) (elems : List Json) : List CardData :=
  let sheetData := elems.map w.asSheetCard
  match strategy with
  | some st => mergeCardDataWithPreference w.parseTime sheetData localCards st
  | none => mergeCardData w.parseTime sheetData localCards

/-- sync from useGoogleSheetsSync.ts lines 266-310: startSync and clear the
error, pull, read local cards, merge, persist every merged entity, reload the
store's card list, push, finishSync; the catch block records the error
message, resets isSyncing and re-raises. -/
def sync (w : SyncWorld) (strategy : Option MergeStrategy) (s0 : SyncSession)
    (store0 : List CardData) (storeCards0 : List CardView) : SyncOutcome :=
  let s1 := setError none (startSync s0)
  match syncFromSheet w.parseJson s1.googleSheetUrl w.getResult with
  | .error e =>
    { result := .error e
      session := { setError (some e) s1 with isSyncing := false }
      store := store0
      storeCards := storeCards0
      events := [] }
  | .ok elems =>
    let mergedCards := mergedCardsOf w strategy store0 elems
    let store1 := persistMerged w.now store0 mergedCards
    match w.reloadResult with
    | .error e =>
      { result := .error e
        session := { setError (some e) s1 with isSyncing := false }
        store := store1
        storeCards := storeCards0
        events := [.pulled, .savedMerged] }
    | .ok newCards =>
      let push := syncToSheet s1.googleSheetUrl store1 newCards w.now w.postResult
      match push.outcome with
      | .error e =>
        { result := .error e
          session := { setError (some e) s1 with isSyncing := false }
          store := store1
          storeCards := newCards
          events := [.pulled, .savedMerged, .reloaded] }
      | .ok _ =>
        { result := .ok ()
          session := finishSync w.now s1
          store := store1
          storeCards := newCards
          events := [.pulled, .savedMerged, .reloaded, .pushed] }

/-- State of the debouncedAutoSync closure (useGoogleSheetsSync.ts lines
336-358). debounceTimeout holds the index of the call whose setTimeout
callback is currently scheduled (none when no timer is pending); autoSyncRuns
counts invocations of autoSync; settled records, in order, each call index
whose promise has settled together with the outcome it settled with. Each
call clears the pending timeout — whose closure holds the only reference to
the previous caller's resolve and reject — and schedules a fresh timeout that
settles only its own promise. -/
structure DebounceState where
  debounceTimeout : Option Nat
  autoSyncRuns : Nat
  settled : List (Nat × Except String Unit)
  deriving Repr

/-- Events of the debounce machine: call i is the i-th invocation of
debouncedAutoSync; fire is a scheduled timeout elapsing its full 2000ms
window, with the outcome of the awaited autoSync run. -/
inductive DebounceEvent where
  | call (i : Nat)
  | fire (outcome : Except String Unit)

/-- One step of the debounce machine. A call clears any pending timeout and
schedules its own (lines 340-348). A fire runs the callback of the pending
timeout, if any: it invokes autoSync once and resolves or rejects the promise
of the call that scheduled it (lines 348-356); a cleared timeout never runs. -/
def debounceStep (s : DebounceState) : DebounceEvent → DebounceState
  | .call i => { s with debounceTimeout := some i }
  | .fire outcome =>
    match s.debounceTimeout with
    | some i =>
      { debounceTimeout := none
        autoSyncRuns := s.autoSyncRuns + 1
        settled := s.settled ++ [(i, outcome)] }
    | none => s

/-- Run the debounce machine over a list of events. -/
def debounceRun (s : DebounceState) (events : List DebounceEvent) : DebounceState :=
  events.foldl debounceStep s

/-- The closure state when useGoogleSheetsSync() first runs (lines 336-337):
no pending timeout, no autoSync invocations, no settled promises. -/
def debounceInit : DebounceState :=
  { debounceTimeout := none, autoSyncRuns := 0, settled := [] }

set_option maxRecDepth 2048

/-- notes || "" is the identity on strings. -/
lemma notesOr_eq (s : String) : notesOr s = s := by
  unfold notesOr
  split
  · rename_i h
    exact h.symm
  · rfl

/-- Folding the last-match-wins lookup from an arbitrary initial accumulator:
the result of the fold from none decides, falling back to the initial value. -/
lemma lookup_foldl_init (l : List CardData) (name : String) (init : Option CardData) :
    l.foldl (fun acc c => if c.cardName = name then some c else acc) init
      = (l.foldl (fun acc c => if c.cardName = name then some c else acc) none).elim
          init some := by
  induction l generalizing init with
  | nil => rfl
  | cons c l ih =>
      simp only [List.foldl_cons]
      rw [ih, ih (if c.cardName = name then some c else none)]
      cases h : l.foldl (fun acc c => if c.cardName = name then some c else acc) none with
      | some d => simp
      | none =>
          by_cases hc : c.cardName = name <;> simp [hc]

/-- Cons unfolding of lookupByName. -/
lemma lookupByName_cons (c : CardData) (l : List CardData) (name : String) :
    lookupByName (c :: l) name
      = (lookupByName l name).elim (if c.cardName = name then some c else none) some := by
  unfold lookupByName
  simp only [List.foldl_cons]
  exact lookup_foldl_init l name _

/-- Append unfolding of lookupByName: the later list wins. -/
lemma lookupByName_append (a b : List CardData) (name : String) :
    lookupByName (a ++ b) name = (lookupByName b name).elim (lookupByName a name) some := by
  unfold lookupByName
  rw [List.foldl_append]
  exact lookup_foldl_init b name _

/-- A successful lookup returns a member with the searched name. -/
lemma lookupByName_mem (l : List CardData) (name : String) (c : CardData)
    (h : lookupByName l name = some c) : c ∈ l ∧ c.cardName = name := by
  induction l with
  | nil => simp [lookupByName] at h
  | cons d l ih =>
      rw [lookupByName_cons] at h
      cases hl : lookupByName l name with
      | some e =>
          rw [hl] at h
          simp only [Option.elim] at h
          cases h
          obtain ⟨he, hn⟩ := ih hl
          exact ⟨List.mem_cons_of_mem _ he, hn⟩
      | none =>
          rw [hl] at h
          simp only [Option.elim] at h
          by_cases hd : d.cardName = name
          · rw [if_pos hd] at h
            cases h
            exact ⟨List.mem_cons_self _ _, hd⟩
          · rw [if_neg hd] at h
            cases h

/-- Lookup misses when no member carries the searched name. -/
lemma lookupByName_eq_none (l : List CardData) (name : String)
    (h : ∀ c ∈ l, c.cardName ≠ name) : lookupByName l name = none := by
  induction l with
  | nil => rfl
  | cons d l ih =>
      rw [lookupByName_cons, ih fun c hc => h c (List.mem_cons_of_mem _ hc),
        if_neg (h d (List.mem_cons_self _ _))]
      rfl

/-- C9: assignmentToInteger and integerToAssignment form the bidirectional
mapping unassigned to 0, player1 to 1, player2 to 2, shared to 3, and every
integer outside 0..3 decodes to unassigned. -/
theorem C9_assignment_code_bijection :
    (∀ n : Int, n ∈ ([0, 1, 2, 3] : List Int) →
      assignmentToInteger (integerToAssignment n) = n)
    ∧ (∀ a : CardAssignment, integerToAssignment (assignmentToInteger a) = a)
    ∧ (∀ n : Int, n ∉ ([0, 1, 2, 3] : List Int) →
      integerToAssignment n = .unassigned) := by
  refine ⟨?_, ?_, ?_⟩
  · intro n hn
    simp only [List.mem_cons, List.not_mem_nil, or_false] at hn
    rcases hn with rfl | rfl | rfl | rfl <;> rfl
  · intro a
    cases a <;> rfl
  · intro n hn
    simp only [List.mem_cons, List.not_mem_nil, or_false, not_or] at hn
    obtain ⟨h0, h1, h2, h3⟩ := hn
    simp [integerToAssignment, h0, h1, h2, h3]

/-- C9 witness: concrete instances of all three parts. -/
theorem C9_assignment_code_bijection_witness :
    assignmentToInteger (integerToAssignment 2) = 2
    ∧ integerToAssignment (assignmentToInteger .player1) = .player1
    ∧ integerToAssignment 7 = .unassigned :=
  ⟨C9_assignment_code_bijection.1 2 (by decide),
   C9_assignment_code_bijection.2.1 .player1,
   C9_assignment_code_bijection.2.2 7 (by decide)⟩

/-- C1: saveCardData has no branch for the id field, so the fullSync persist
step drops a defined id. Persisting the merged Dishes entity carrying id x1
over a store whose Dishes record has no id leaves the stored id absent, and
the UUID migration reports one updated card while needsUuidMigration still
holds afterwards — contradicting the migration's own documented purpose. -/
theorem C1_persist_step_drops_id :
    (storeGet
        (persistMerged "2024-06-02T00:00:00Z" [{ cardName := "Dishes" }]
          [{ cardName := "Dishes", id := some "x1", assignment := .player2,
             notes := "ok", trimmed := false,
             lastUpdated := some "2024-06-01T00:00:00Z" }])
        "Dishes").map CardData.id = some none
    ∧ (migrateCardsToIncludeUuids "t" (fun _ => "fresh-id") [{ cardName := "Dishes" }]).1 = 1
    ∧ needsUuidMigration
        (migrateCardsToIncludeUuids "t" (fun _ => "fresh-id") [{ cardName := "Dishes" }]).2
      = true :=
  ⟨rfl, rfl, rfl⟩

/-- C2 counterexample: three debouncedAutoSync calls within one window followed
by the single timer firing yield exactly one autoSync invocation, but the
settled list is [(2, ok)] — only the third call's promise ever settles, so the
first two callers never observe the invocation's outcome. -/
theorem C2_counterexample_only_last_promise_settles :
    (debounceRun debounceInit
        [.call 0, .call 1, .call 2, .fire (.ok ())]).autoSyncRuns = 1
    ∧ (debounceRun debounceInit
        [.call 0, .call 1, .call 2, .fire (.ok ())]).settled = [(2, .ok ())] :=
  ⟨rfl, rfl⟩

/-- Running the debounce machine over an appended event list. -/
lemma debounceRun_append (s : DebounceState) (a b : List DebounceEvent) :
    debounceRun s (a ++ b) = debounceRun (debounceRun s a) b :=
  List.foldl_append ..

/-- A run of calls 0..m leaves only the pending-timeout slot changed: the last
call owns the timer, every earlier caller's resolver has been discarded. -/
lemma debounceRun_range_calls (s : DebounceState) (m : Nat) :
    debounceRun s ((List.range (m + 1)).map DebounceEvent.call)
      = { s with debounceTimeout := some m } := by
  induction m with
  | zero => rfl
  | succ m ih =>
      rw [List.range_succ, List.map_append, debounceRun_append, ih]
      rfl

/-- Settled promises of old calls stay unsettled forever: once the state
neither has an old call's timer pending nor an old entry settled, no further
events (whose calls are all fresh) can settle an old call's promise. -/
lemma debounce_no_old_settle (t : Nat) (es : List DebounceEvent) :
    ∀ s : DebounceState,
      (∀ i, DebounceEvent.call i ∈ es → ¬ i < t) →
      (∀ j r, (j, r) ∈ s.settled → ¬ j < t) →
      (∀ i, s.debounceTimeout = some i → ¬ i < t) →
      ∀ j r, j < t → (j, r) ∉ (debounceRun s es).settled := by
  induction es with
  | nil =>
      intro s _ hsettled _ j r hj hmem
      exact hsettled j r hmem hj
  | cons e es ih =>
      intro s hes hsettled htimer j r hj
      show (j, r) ∉ (debounceRun (debounceStep s e) es).settled
      refine ih (debounceStep s e) (fun i hi => hes i (List.mem_cons_of_mem _ hi))
        ?_ ?_ j r hj
      · cases e with
        | call i =>
            intro j' r' hmem
            exact hsettled j' r' hmem
        | fire o =>
            cases ht : s.debounceTimeout with
            | some i =>
                intro j' r' hmem
                simp only [debounceStep, ht, List.mem_append, List.mem_singleton] at hmem
                rcases hmem with hmem | hmem
                · exact hsettled j' r' hmem
                · cases hmem
                  exact htimer _ ht
            | none =>
                intro j' r' hmem
                simp only [debounceStep, ht] at hmem
                exact hsettled j' r' hmem
      · cases e with
        | call i =>
            intro i' hi'
            simp only [debounceStep] at hi'
            cases hi'
            exact hes i (List.mem_cons_self _ _)
        | fire o =>
            cases ht : s.debounceTimeout with
            | some i =>
                intro i' hi'
                simp [debounceStep, ht] at hi'
            | none =>
                intro i' hi'
                simp only [debounceStep, ht] at hi'
                exact Option.noConfusion hi'

/-- C2 amended: for n calls collapsed into one trailing-edge window, exactly
one autoSync invocation occurs when the timer of the most recent call fires,
and only the most recent call's promise settles, with that invocation's
outcome; the promises handed to the earlier calls in the window are never
settled by any continuation whose new calls are fresh. -/
theorem C2_amended_debounce (n : Nat) (hn : 1 ≤ n) (outcome : Except String Unit)
    (es : List DebounceEvent)
    (hes : ∀ i, DebounceEvent.call i ∈ es → n ≤ i) :
    (debounceRun debounceInit ((List.range n).map DebounceEvent.call
        ++ [DebounceEvent.fire outcome])).autoSyncRuns = 1
    ∧ (debounceRun debounceInit ((List.range n).map DebounceEvent.call
        ++ [DebounceEvent.fire outcome])).settled = [(n - 1, outcome)]
    ∧ ∀ j, j < n - 1 → ∀ r,
        (j, r) ∉ (debounceRun (debounceRun debounceInit
          ((List.range n).map DebounceEvent.call ++ [DebounceEvent.fire outcome]))
          es).settled := by
  obtain ⟨m, rfl⟩ : ∃ m, n = m + 1 := ⟨n - 1, (Nat.succ_pred_eq_of_pos hn).symm⟩
  have hrun : debounceRun debounceInit ((List.range (m + 1)).map DebounceEvent.call
      ++ [DebounceEvent.fire outcome])
      = { debounceTimeout := none, autoSyncRuns := 1, settled := [(m, outcome)] } := by
    rw [debounceRun_append, debounceRun_range_calls]
    rfl
  rw [hrun]
  refine ⟨rfl, by simp, ?_⟩
  intro j hj r
  refine debounce_no_old_settle (m + 1 - 1) es _ ?_ ?_ ?_ j r hj
  · intro i hi
    exact Nat.not_lt.mpr (Nat.le_trans (Nat.sub_le _ _) (hes i hi))
  · intro j' r' hmem
    simp only [List.mem_singleton] at hmem
    cases hmem
    exact Nat.lt_irrefl _
  · intro i hi
    cases hi

/-- C2 amended witness: the three-call scenario, instantiated concretely. -/
theorem C2_amended_debounce_witness :
    (debounceRun debounceInit ((List.range 3).map DebounceEvent.call
        ++ [DebounceEvent.fire (.ok ())])).autoSyncRuns = 1
    ∧ (debounceRun debounceInit ((List.range 3).map DebounceEvent.call
        ++ [DebounceEvent.fire (.ok ())])).settled = [(2, .ok ())] :=
  ⟨(C2_amended_debounce 3 (by decide) (.ok ()) [] (by simp)).1,
   (C2_amended_debounce 3 (by decide) (.ok ()) [] (by simp)).2.1⟩

/-- C3: in the newer-wins merge, the i-th output entity for a sheet row with a
local match takes the sheet's assignment (decoded), trimmed (decoded),
lastUpdated and id but keeps the local notes when the sheet timestamp is
strictly greater; otherwise it equals the local entity with only its id
overwritten by the sheet's id. -/
theorem C3_newer_wins_row (parseTime : String → Int)
    (sheetData : List GoogleSheetCardData) (localCards : List CardData)
    (i : Nat) (hi : i < sheetData.length) (sc : GoogleSheetCardData)
    (lc : CardData) (hsc : sheetData.get ⟨i, hi⟩ = sc)
    (hlc : lookupByName localCards sc.cardName = some lc) :
    (localTimeOf parseTime lc.lastUpdated < parseTime sc.lastUpdated →
      (mergeCardData parseTime sheetData localCards)[i]? = some
        { cardName := sc.cardName, id := some sc.cardId,
          assignment := integerToAssignment sc.assignment, notes := lc.notes,
          trimmed := sc.trimmed == 1, lastUpdated := some sc.lastUpdated })
    ∧ (¬ localTimeOf parseTime lc.lastUpdated < parseTime sc.lastUpdated →
      (mergeCardData parseTime sheetData localCards)[i]? = some
        { lc with id := some sc.cardId }) := by
  have hmap : i < (sheetData.map fun sheetCard =>
      mergeRow parseTime sheetCard (lookupByName localCards sheetCard.cardName)).length := by
    simpa using hi
  have hidx : (mergeCardData parseTime sheetData localCards)[i]?
      = some (mergeRow parseTime sc (lookupByName localCards sc.cardName)) := by
    unfold mergeCardData
    rw [List.getElem?_append_left hmap, List.getElem?_map, List.getElem?_eq_getElem hi]
    rw [List.get_eq_getElem] at hsc
    simp [hsc]
  rw [hlc] at hidx
  constructor
  · intro hlt
    rw [hidx]
    simp only [mergeRow, if_pos hlt, notesOr_eq]
  · intro hge
    rw [hidx]
    simp only [mergeRow, if_neg hge]

/-- C3 witness: the Dishes scenario with the concrete ISO timestamp parse, in
both the newer-remote and older-remote variants. -/
theorem C3_newer_wins_row_witness :
    (mergeCardData parseIsoZ
        [{ cardId := "x1", cardName := "Dishes", assignment := 2, trimmed := 0,
           lastUpdated := "2024-06-01T00:00:00Z" }]
        [{ cardName := "Dishes", assignment := .player1, notes := "ok",
           trimmed := false, lastUpdated := some "2024-01-01T00:00:00Z" }])[0]?
      = some
        { cardName := "Dishes", id := some "x1", assignment := .player2,
          notes := "ok", trimmed := false, lastUpdated := some "2024-06-01T00:00:00Z" }
    ∧ (mergeCardData parseIsoZ
        [{ cardId := "x1", cardName := "Dishes", assignment := 2, trimmed := 0,
           lastUpdated := "2023-01-01T00:00:00Z" }]
        [{ cardName := "Dishes", assignment := .player1, notes := "ok",
           trimmed := false, lastUpdated := some "2024-01-01T00:00:00Z" }])[0]?
      = some
        { cardName := "Dishes", id := some "x1", assignment := .player1,
          notes := "ok", trimmed := false, lastUpdated := some "2024-01-01T00:00:00Z" } :=
  ⟨(C3_newer_wins_row parseIsoZ
      [{ cardId := "x1", cardName := "Dishes", assignment := 2, trimmed := 0,
         lastUpdated := "2024-06-01T00:00:00Z" }]
      [{ cardName := "Dishes", assignment := .player1, notes := "ok",
         trimmed := false, lastUpdated := some "2024-01-01T00:00:00Z" }]
      0 (by decide)
      { cardId := "x1", cardName := "Dishes", assignment := 2, trimmed := 0,
        lastUpdated := "2024-06-01T00:00:00Z" }
      { cardName := "Dishes", assignment := .player1, notes := "ok",
        trimmed := false, lastUpdated := some "2024-01-01T00:00:00Z" }
      rfl rfl).1 (by decide),
   (C3_newer_wins_row parseIsoZ
      [{ cardId := "x1", cardName := "Dishes", assignment := 2, trimmed := 0,
         lastUpdated := "2023-01-01T00:00:00Z" }]
      [{ cardName := "Dishes", assignment := .player1, notes := "ok",
         trimmed := false, lastUpdated := some "2024-01-01T00:00:00Z" }]
      0 (by decide)
      { cardId := "x1", cardName := "Dishes", assignment := 2, trimmed := 0,
        lastUpdated := "2023-01-01T00:00:00Z" }
      { cardName := "Dishes", assignment := .player1, notes := "ok",
        trimmed := false, lastUpdated := some "2024-01-01T00:00:00Z" }
      rfl rfl).2 (by decide)⟩

/-- C5: under the use-sheet strategy every sheet row unconditionally produces
the output entity with the sheet's id, decoded assignment, decoded trimmed and
lastUpdated, notes taken from the matching local entity when one exists and
empty otherwise; and every local entity without a sheet row of the same name
passes through to the output unchanged. -/
theorem C5_use_sheet_merge (parseTime : String → Int)
    (sheetData : List GoogleSheetCardData) (localCards : List CardData) :
    (∀ i, ∀ hi : i < sheetData.length,
      (mergeCardDataWithPreference parseTime sheetData localCards .useSheet)[i]? = some
        { cardName := (sheetData.get ⟨i, hi⟩).cardName
          id := some (sheetData.get ⟨i, hi⟩).cardId
          assignment := integerToAssignment (sheetData.get ⟨i, hi⟩).assignment
          notes := ((lookupByName localCards (sheetData.get ⟨i, hi⟩).cardName).map
            CardData.notes).getD ""
          trimmed := (sheetData.get ⟨i, hi⟩).trimmed == 1
          lastUpdated := some (sheetData.get ⟨i, hi⟩).lastUpdated })
    ∧ (∀ lc ∈ localCards, (∀ sc ∈ sheetData, sc.cardName ≠ lc.cardName) →
        lc ∈ mergeCardDataWithPreference parseTime sheetData localCards .useSheet) := by
  constructor
  · intro i hi
    have hmap : i < (sheetData.map (useSheetRow localCards)).length := by
      simpa using hi
    show (mergeCardDataWithPreference parseTime sheetData localCards .useSheet)[i]? = _
    unfold mergeCardDataWithPreference
    rw [List.getElem?_append_left hmap, List.getElem?_map, List.getElem?_eq_getElem hi]
    unfold useSheetRow
    cases hl : lookupByName localCards sheetData[i].cardName with
    | some lc => simp [hl, notesOr_eq, List.get_eq_getElem]
    | none => simp [hl, List.get_eq_getElem]
  · intro lc hlc hnone
    unfold mergeCardDataWithPreference
    refine List.mem_append_right _ ?_
    refine List.mem_filter.mpr ⟨hlc, ?_⟩
    simp only [Bool.not_eq_true', List.any_eq_false]
    intro sc hsc
    simpa using hnone sc hsc

/-- C5 witness: one sheet row with a matched local entity carrying notes, an
older local timestamp overridden anyway, and an unmatched local entity passing
through. -/
theorem C5_use_sheet_merge_witness :
    (mergeCardDataWithPreference parseIsoZ
        [{ cardId := "x1", cardName := "Dishes", assignment := 2, trimmed := 1,
           lastUpdated := "2023-01-01T00:00:00Z" }]
        [{ cardName := "Dishes", assignment := .player1, notes := "ok",
           trimmed := false, lastUpdated := some "2024-01-01T00:00:00Z" },
         { cardName := "Laundry", assignment := .shared, notes := "n",
           trimmed := false, lastUpdated := some "2024-02-01T00:00:00Z" }]
        .useSheet)[0]?
      = some
        { cardName := "Dishes", id := some "x1", assignment := .player2,
          notes := "ok", trimmed := true, lastUpdated := some "2023-01-01T00:00:00Z" }
    ∧ ({ cardName := "Laundry", assignment := .shared, notes := "n",
         trimmed := false, lastUpdated := some "2024-02-01T00:00:00Z" } : CardData)
        ∈ mergeCardDataWithPreference parseIsoZ
          [{ cardId := "x1", cardName := "Dishes", assignment := 2, trimmed := 1,
             lastUpdated := "2023-01-01T00:00:00Z" }]
          [{ cardName := "Dishes", assignment := .player1, notes := "ok",
             trimmed := false, lastUpdated := some "2024-01-01T00:00:00Z" },
           { cardName := "Laundry", assignment := .shared, notes := "n",
             trimmed := false, lastUpdated := some "2024-02-01T00:00:00Z" }]
          .useSheet :=
  ⟨(C5_use_sheet_merge parseIsoZ _ _).1 0 (by decide),
   (C5_use_sheet_merge parseIsoZ _ _).2 _ (by decide) (by decide)⟩

/-- C7: the pull fails exactly on the enumerated transport conditions — unset
endpoint, non-success HTTP status, HTML content-type or body (the distinct
misconfiguration message), JSON parse failure, or a non-array parse result —
and otherwise returns the parsed array; a rejected fetch propagates its own
error. -/
theorem C7_pull_error_conditions (parseJson : String → Option Json) (url : String)
    (resp : HttpResp) :
    (∀ fetchResult, url = "" →
      syncFromSheet parseJson url fetchResult = .error urlNotConfiguredMsg)
    ∧ (∀ e, url ≠ "" → syncFromSheet parseJson url (.error e) = .error e)
    ∧ (url ≠ "" →
      ((∃ e, syncFromSheet parseJson url (.ok resp) = .error e) ↔
        (resp.respOk = false
          ∨ includesSubstr resp.contentType "text/html" = true
          ∨ trimmedStartsWithLt resp.bodyText = true
          ∨ parseJson resp.bodyText = none
          ∨ ∀ elems, parseJson resp.bodyText ≠ some (.arr elems))))
    ∧ (url ≠ "" →
      ((includesSubstr resp.contentType "text/html"
          || trimmedStartsWithLt resp.bodyText) = true → resp.respOk = true →
        syncFromSheet parseJson url (.ok resp) = .error htmlInsteadOfJsonMsg))
    ∧ (∀ elems, url ≠ "" → resp.respOk = true →
        includesSubstr resp.contentType "text/html" = false →
        trimmedStartsWithLt resp.bodyText = false →
        parseJson resp.bodyText = some (.arr elems) →
        syncFromSheet parseJson url (.ok resp) = .ok elems) := by
  refine ⟨?_, ?_, ?_, ?_, ?_⟩
  · intro fetchResult h
    unfold syncFromSheet
    rw [if_pos h]
  · intro e h
    unfold syncFromSheet
    rw [if_neg h]
  · intro h
    unfold syncFromSheet
    rw [if_neg h]
    by_cases h1 : resp.respOk
    · by_cases h2 : (includesSubstr resp.contentType "text/html"
          || trimmedStartsWithLt resp.bodyText) = true
      · rcases Bool.or_eq_true_iff.mp h2 with h2' | h2'
        · simp [h1, h2, h2']
        · simp [h1, h2, h2']
      · rw [Bool.or_eq_true_iff, not_or] at h2
        obtain ⟨h2a, h2b⟩ := h2
        cases hp : parseJson resp.bodyText with
        | none => simp [h1, Bool.not_eq_true _ ▸ h2a, h2a, h2b, hp]
        | some j =>
            cases j with
            | arr elems =>
                simp only [Bool.not_eq_true] at h2a h2b
                simp [h1, h2a, h2b, hp]
            | null =>
                simp only [Bool.not_eq_true] at h2a h2b
                simp [h1, h2a, h2b, hp]
            | bool b =>
                simp only [Bool.not_eq_true] at h2a h2b
                simp [h1, h2a, h2b, hp]
            | num n =>
                simp only [Bool.not_eq_true] at h2a h2b
                simp [h1, h2a, h2b, hp]
            | str s =>
                simp only [Bool.not_eq_true] at h2a h2b
                simp [h1, h2a, h2b, hp]
            | obj fields =>
                simp only [Bool.not_eq_true] at h2a h2b
                simp [h1, h2a, h2b, hp]
    · simp only [Bool.not_eq_true] at h1
      simp [h1]
  · intro h hhtml hok
    unfold syncFromSheet
    rw [if_neg h]
    simp [hok, hhtml]
  · intro elems h hok hct hbody hp
    unfold syncFromSheet
    rw [if_neg h]
    simp [hok, hct, hbody, hp]

/-- C7 witness: the unset-endpoint error, a propagated network rejection, the
HTML misconfiguration message, and a successful parse of a concrete array
body. -/
theorem C7_pull_error_conditions_witness :
    syncFromSheet (fun s => if s = "[]" then some (.arr []) else none) ""
        (.ok { status := 200, statusText := "OK",
               contentType := "application/json", bodyText := "[]" })
      = .error urlNotConfiguredMsg
    ∧ syncFromSheet (fun s => if s = "[]" then some (.arr []) else none)
        "https://script.google.com/x" (.error "network down")
      = .error "network down"
    ∧ syncFromSheet (fun s => if s = "[]" then some (.arr []) else none)
        "https://script.google.com/x"
        (.ok { status := 200, statusText := "OK",
               contentType := "text/html; charset=utf-8", bodyText := "<html>" })
      = .error htmlInsteadOfJsonMsg
    ∧ syncFromSheet (fun s => if s = "[]" then some (.arr []) else none)
        "https://script.google.com/x"
        (.ok { status := 200, statusText := "OK",
               contentType := "application/json", bodyText := "[]" })
      = .ok [] :=
  ⟨(C7_pull_error_conditions (fun s => if s = "[]" then some (.arr []) else none) ""
      { status := 200, statusText := "OK",
        contentType := "application/json", bodyText := "[]" }).1 _ rfl,
   (C7_pull_error_conditions (fun s => if s = "[]" then some (.arr []) else none)
      "https://script.google.com/x"
      { status := 200, statusText := "OK",
        contentType := "application/json", bodyText := "[]" }).2.1
      "network down" (by decide),
   (C7_pull_error_conditions (fun s => if s = "[]" then some (.arr []) else none)
      "https://script.google.com/x"
      { status := 200, statusText := "OK",
        contentType := "text/html; charset=utf-8", bodyText := "<html>" }).2.2.2.1
      (by decide) (by decide) (by decide),
   (C7_pull_error_conditions (fun s => if s = "[]" then some (.arr []) else none)
      "https://script.google.com/x"
      { status := 200, statusText := "OK",
        contentType := "application/json", bodyText := "[]" }).2.2.2.2 []
      (by decide) (by decide) (by decide) (by decide) (by simp)⟩

/-- The push payload, independent of the POST outcome: none when the URL is
unset or no stored card qualifies, else the rows for the qualifying cards. -/
lemma syncToSheet_sentPayload (url : String) (allCardData : List CardData)
    (storeCards : List CardView) (now : String) (postResult : Except String HttpResp) :
    (syncToSheet url allCardData storeCards now postResult).sentPayload
      = if url = "" then none
        else if (allCardData.filter fun cardData =>
            idTruthy cardData.id && shouldCardHaveId cardData.cardName).isEmpty then none
        else some ((allCardData.filter fun cardData =>
            idTruthy cardData.id && shouldCardHaveId cardData.cardName).map
          (toSheetRow storeCards now)) := by
  unfold syncToSheet
  by_cases hu : url = ""
  · rw [if_pos hu, if_pos hu]
  · rw [if_neg hu, if_neg hu]
    by_cases hemp : (allCardData.filter fun cardData =>
        idTruthy cardData.id && shouldCardHaveId cardData.cardName).isEmpty
    · simp only [hemp, if_pos]
    · simp only [hemp]
      rw [if_neg (by simp [hemp]), if_neg (by simp [hemp])]
      cases postResult with
      | error e => rfl
      | ok response =>
          by_cases hok : response.respOk
          · simp [hok]
          · simp [hok]

/-- C10: the push payload is built only from stored entities that pass the
sync-eligibility check and already carry a truthy (non-empty) id, and when no
stored entity qualifies the push returns normally without any network
request. -/
theorem C10_push_payload_eligibility (url : String) (allCardData : List CardData)
    (storeCards : List CardView) (now : String) (postResult : Except String HttpResp)
    (hurl : url ≠ "") :
    (∀ rows, (syncToSheet url allCardData storeCards now postResult).sentPayload
        = some rows →
      ∀ row ∈ rows, ∃ cd ∈ allCardData, idTruthy cd.id = true
        ∧ shouldCardHaveId cd.cardName = true ∧ row = toSheetRow storeCards now cd)
    ∧ ((allCardData.filter fun cardData =>
          idTruthy cardData.id && shouldCardHaveId cardData.cardName) = [] →
        (syncToSheet url allCardData storeCards now postResult).sentPayload = none
        ∧ (syncToSheet url allCardData storeCards now postResult).outcome = .ok ()) := by
  constructor
  · intro rows hrows row hrow
    rw [syncToSheet_sentPayload, if_neg hurl] at hrows
    by_cases hemp : (allCardData.filter fun cardData =>
        idTruthy cardData.id && shouldCardHaveId cardData.cardName).isEmpty
    · rw [if_pos hemp] at hrows
      cases hrows
    · rw [if_neg hemp] at hrows
      cases hrows
      obtain ⟨cd, hcd, hmap⟩ := List.mem_map.mp hrow
      obtain ⟨hcdmem, hcdpass⟩ := List.mem_filter.mp hcd
      rw [Bool.and_eq_true] at hcdpass
      exact ⟨cd, hcdmem, hcdpass.1, hcdpass.2, hmap.symm⟩
  · intro hnil
    have hsent : (syncToSheet url allCardData storeCards now postResult).sentPayload
        = none := by
      rw [syncToSheet_sentPayload, if_neg hurl, if_pos (by simp [hnil])]
    refine ⟨hsent, ?_⟩
    unfold syncToSheet
    rw [if_neg hurl]
    simp only [hnil, List.isEmpty_nil, if_pos]

/-- C10 witness: a store with one eligible entity lacking an id, one denylisted
entity with an id, and one qualifying entity; plus the no-qualifier early
return. -/
theorem C10_push_payload_eligibility_witness :
    (∃ cd ∈ ([{ cardName := "Dishes", id := some "x1" },
        { cardName := "MINIMUM STANDARD OF CARE", id := some "x2" },
        { cardName := "Laundry" }] : List CardData),
      idTruthy cd.id = true ∧ shouldCardHaveId cd.cardName = true
        ∧ toSheetRow [] "2024-06-01T00:00:00Z"
            { cardName := "Dishes", id := some "x1" }
          = toSheetRow [] "2024-06-01T00:00:00Z" cd)
    ∧ (syncToSheet "https://script.google.com/x"
          ([{ cardName := "Laundry" }] : List CardData) [] "2024-06-01T00:00:00Z"
          (.error "network down")).sentPayload = none
    ∧ (syncToSheet "https://script.google.com/x"
          ([{ cardName := "Laundry" }] : List CardData) [] "2024-06-01T00:00:00Z"
          (.error "network down")).outcome = .ok () := by
  have h10 := C10_push_payload_eligibility "https://script.google.com/x"
    [{ cardName := "Dishes", id := some "x1" },
     { cardName := "MINIMUM STANDARD OF CARE", id := some "x2" },
     { cardName := "Laundry" }] [] "2024-06-01T00:00:00Z" (.error "network down")
    (by decide)
  have h10b := C10_push_payload_eligibility "https://script.google.com/x"
    [{ cardName := "Laundry" }] [] "2024-06-01T00:00:00Z" (.error "network down")
    (by decide)
  refine ⟨?_, (h10b.2 (by decide)).1, (h10b.2 (by decide)).2⟩
  exact h10.1
    (List.map (toSheetRow [] "2024-06-01T00:00:00Z")
      (List.filter
        (fun cardData => idTruthy cardData.id && shouldCardHaveId cardData.cardName)
        [{ cardName := "Dishes", id := some "x1" },
         { cardName := "MINIMUM STANDARD OF CARE", id := some "x2" },
         { cardName := "Laundry" }]))
    (by rw [syncToSheet_sentPayload]; decide)
    (toSheetRow [] "2024-06-01T00:00:00Z" { cardName := "Dishes", id := some "x1" })
    (by decide)

/-- C6: when any fallible step of fullSync fails, the remaining steps are not
executed (witnessed by the executed-event list), the error message lands in
the session's error slot, isSyncing resets to false, the error is re-raised,
lastSyncTime and hasSyncedBefore keep their pre-sync values, and partial
progress is not rolled back: a pull failure leaves the store untouched, while
a reload or push failure leaves the persisted merged entities in the store. -/
theorem C6_full_sync_failure (w : SyncWorld) (strategy : Option MergeStrategy)
    (s0 : SyncSession) (store0 : List CardData) (storeCards0 : List CardView) :
    (∀ e, syncFromSheet w.parseJson s0.googleSheetUrl w.getResult = .error e →
      sync w strategy s0 store0 storeCards0 =
        { result := .error e
          session := { s0 with isSyncing := false, error := some e }
          store := store0
          storeCards := storeCards0
          events := [] })
    ∧ (∀ elems e, syncFromSheet w.parseJson s0.googleSheetUrl w.getResult = .ok elems →
        w.reloadResult = .error e →
        sync w strategy s0 store0 storeCards0 =
          { result := .error e
            session := { s0 with isSyncing := false, error := some e }
            store := persistMerged w.now store0 (mergedCardsOf w strategy store0 elems)
            storeCards := storeCards0
            events := [.pulled, .savedMerged] })
    ∧ (∀ elems newCards e,
        syncFromSheet w.parseJson s0.googleSheetUrl w.getResult = .ok elems →
        w.reloadResult = .ok newCards →
        (syncToSheet s0.googleSheetUrl
            (persistMerged w.now store0 (mergedCardsOf w strategy store0 elems))
            newCards w.now w.postResult).outcome = .error e →
        sync w strategy s0 store0 storeCards0 =
          { result := .error e
            session := { s0 with isSyncing := false, error := some e }
            store := persistMerged w.now store0 (mergedCardsOf w strategy store0 elems)
            storeCards := newCards
            events := [.pulled, .savedMerged, .reloaded] }) := by
  refine ⟨?_, ?_, ?_⟩
  · intro e hpull
    unfold sync
    simp only [setError, startSync]
    rw [hpull]
  · intro elems e hpull hreload
    unfold sync
    simp only [setError, startSync]
    rw [hpull, hreload]
  · intro elems newCards e hpull hreload hpush
    unfold sync
    simp only [setError, startSync]
    rw [hpull, hreload]
    simp only [hpush]

/-- A successful empty-array GET response, for the concrete failure runs. -/
def emptyArrayResp : HttpResp :=
  { status := 200, statusText := "OK", contentType := "application/json",
    bodyText := "[]" }

/-- A concrete host world whose POST is rejected while the pull, the JSON
parse and the reload all succeed. -/
def pushFailWorld : SyncWorld where
  parseJson := fun s => if s = "[]" then some (.arr []) else none
  asSheetCard := fun _ =>
    { cardId := "", cardName := "", assignment := 0, trimmed := 0, lastUpdated := "" }
  parseTime := parseIsoZ
  getResult := .ok emptyArrayResp
  reloadResult := .ok []
  postResult := .error "network down"
  now := "2024-06-02T00:00:00Z"

/-- A configured, never-synced session before a run. -/
def preSession : SyncSession where
  isSyncing := false
  error := none
  googleSheetUrl := "https://script.google.com/x"
  hasSyncedBefore := false
  lastSyncTime := none

/-- C6 witness: a concrete run whose push fails after the pull, merge, persist
and reload succeeded — the merged entities stay in the store, the push error
is recorded and re-raised, and neither lastSyncTime nor hasSyncedBefore moves. -/
theorem C6_full_sync_failure_witness :
    sync pushFailWorld none preSession [{ cardName := "Dishes", id := some "x1" }] []
      = { result := .error "network down"
          session := { preSession with error := some "network down" }
          store := persistMerged "2024-06-02T00:00:00Z"
            [{ cardName := "Dishes", id := some "x1" }]
            (mergedCardsOf pushFailWorld none
              [{ cardName := "Dishes", id := some "x1" }] [])
          storeCards := []
          events := [.pulled, .savedMerged, .reloaded] } :=
  (C6_full_sync_failure pushFailWorld none preSession
      [{ cardName := "Dishes", id := some "x1" }] []).2.2 [] [] "network down"
    rfl rfl rfl

/-- A merged row keeps the sheet row's name: the remote branch sets it
directly, the local branch inherits it from the looked-up match. -/
lemma mergeRow_lookup_cardName (pt : String → Int) (sc : GoogleSheetCardData)
    (L : List CardData) :
    (mergeRow pt sc (lookupByName L sc.cardName)).cardName = sc.cardName := by
  cases hl : lookupByName L sc.cardName with
  | none => rfl
  | some lc =>
      have hname := (lookupByName_mem L sc.cardName lc hl).2
      simp only [mergeRow]
      split
      · rfl
      · exact hname

/-- Re-merging a sheet row against its own previous merge result is a no-op. -/
lemma mergeRow_absorb (pt : String → Int) (sc : GoogleSheetCardData)
    (o : Option CardData) :
    mergeRow pt sc (some (mergeRow pt sc o)) = mergeRow pt sc o := by
  cases o with
  | none =>
      simp only [mergeRow]
      split <;> rfl
  | some lc =>
      by_cases h : localTimeOf pt lc.lastUpdated < pt sc.lastUpdated
      · simp only [mergeRow, if_pos h]
        split <;> simp [notesOr_eq]
      · simp only [mergeRow, if_neg h]

/-- With pairwise-distinct sheet names, looking a sheet row's name up in the
merged-rows list finds exactly that row's merge result. -/
lemma lookupByName_map_mergeRow (pt : String → Int) (L : List CardData)
    (R : List GoogleSheetCardData) (hR : (R.map GoogleSheetCardData.cardName).Nodup)
    (sc : GoogleSheetCardData) (hsc : sc ∈ R) :
    lookupByName (R.map fun x => mergeRow pt x (lookupByName L x.cardName)) sc.cardName
      = some (mergeRow pt sc (lookupByName L sc.cardName)) := by
  induction R with
  | nil => cases hsc
  | cons r R ih =>
      rw [List.map_cons, lookupByName_cons]
      rw [List.map_cons, List.nodup_cons] at hR
      rcases List.mem_cons.mp hsc with rfl | hmem
      · have hnone : lookupByName
            (R.map fun x => mergeRow pt x (lookupByName L x.cardName)) sc.cardName
            = none := by
          apply lookupByName_eq_none
          intro c hc
          obtain ⟨x, hx, rfl⟩ := List.mem_map.mp hc
          rw [mergeRow_lookup_cardName]
          intro hEq
          exact hR.1 (hEq ▸ List.mem_map_of_mem _ hx)
        rw [hnone]
        simp [Option.elim, mergeRow_lookup_cardName]
      · rw [ih hR.2 hmem]
        rfl

/-- C8 counterexample: with two sheet rows sharing one name, re-merging the
same sheet snapshot against its own prior merge result is not a no-op — the
first output entity changes between the first and second merge. -/
theorem C8_counterexample_duplicate_sheet_names :
    mergeCardData parseIsoZ
        [{ cardId := "a", cardName := "A", assignment := 0, trimmed := 0,
           lastUpdated := "2024-01-01T00:00:03Z" },
         { cardId := "b", cardName := "A", assignment := 0, trimmed := 0,
           lastUpdated := "2024-01-01T00:00:05Z" }]
        (mergeCardData parseIsoZ
          [{ cardId := "a", cardName := "A", assignment := 0, trimmed := 0,
             lastUpdated := "2024-01-01T00:00:03Z" },
           { cardId := "b", cardName := "A", assignment := 0, trimmed := 0,
             lastUpdated := "2024-01-01T00:00:05Z" }]
          [])
      ≠ mergeCardData parseIsoZ
        [{ cardId := "a", cardName := "A", assignment := 0, trimmed := 0,
           lastUpdated := "2024-01-01T00:00:03Z" },
         { cardId := "b", cardName := "A", assignment := 0, trimmed := 0,
           lastUpdated := "2024-01-01T00:00:05Z" }]
        [] := by decide

/-- C8 amended: when the sheet rows carry pairwise-distinct names (the
documented natural-key invariant), the newer-wins merge is idempotent against
its own output, for any local list and any timestamp parse. -/
theorem C8_amended_newer_wins_idempotent (pt : String → Int)
    (R : List GoogleSheetCardData) (L : List CardData)
    (hR : (R.map GoogleSheetCardData.cardName).Nodup) :
    mergeCardData pt R (mergeCardData pt R L) = mergeCardData pt R L := by
  unfold mergeCardData
  congr 1
  · -- the re-merged sheet rows coincide with the first merge's sheet rows
    apply List.map_congr_left
    intro sc hsc
    have hlocOnly : lookupByName
        (L.filter fun localCard =>
          !(R.any fun sheetCard => sheetCard.cardName == localCard.cardName))
        sc.cardName = none := by
      apply lookupByName_eq_none
      intro c hc
      obtain ⟨hcL, hcP⟩ := List.mem_filter.mp hc
      simp only [Bool.not_eq_true', List.any_eq_false] at hcP
      intro hEq
      have hne := hcP sc hsc
      rw [beq_iff_eq] at hne
      exact hne hEq.symm
    rw [lookupByName_append, hlocOnly]
    simp only [Option.elim]
    rw [lookupByName_map_mergeRow pt L R hR sc hsc]
    exact mergeRow_absorb pt sc _
  · -- the pass-through part: merged sheet rows are filtered out again,
    -- filtered locals are unchanged by a second filter
    rw [List.filter_append, List.filter_filter]
    have h1 : (R.map fun x => mergeRow pt x (lookupByName L x.cardName)).filter
        (fun localCard =>
          !(R.any fun sheetCard => sheetCard.cardName == localCard.cardName)) = [] := by
      rw [List.filter_eq_nil_iff]
      intro c hc
      obtain ⟨x, hx, rfl⟩ := List.mem_map.mp hc
      simp only [Bool.not_eq_true']
      rw [List.any_eq_false]
      intro hall
      have hself := hall x hx
      rw [mergeRow_lookup_cardName] at hself
      simp at hself
    rw [h1, List.nil_append]
    apply List.filter_congr
    intro c hc
    rw [Bool.and_self]

/-- C8 amended witness: a concrete sheet snapshot with distinct names merged
twice against a local list. -/
theorem C8_amended_newer_wins_idempotent_witness :
    mergeCardData parseIsoZ
        [{ cardId := "x1", cardName := "Dishes", assignment := 2, trimmed := 0,
           lastUpdated := "2024-06-01T00:00:00Z" },
         { cardId := "x2", cardName := "Laundry", assignment := 1, trimmed := 1,
           lastUpdated := "2023-01-01T00:00:00Z" }]
        (mergeCardData parseIsoZ
          [{ cardId := "x1", cardName := "Dishes", assignment := 2, trimmed := 0,
             lastUpdated := "2024-06-01T00:00:00Z" },
           { cardId := "x2", cardName := "Laundry", assignment := 1, trimmed := 1,
             lastUpdated := "2023-01-01T00:00:00Z" }]
          [{ cardName := "Dishes", assignment := .player1, notes := "ok",
             trimmed := false, lastUpdated := some "2024-01-01T00:00:00Z" },
           { cardName := "Laundry", assignment := .shared, notes := "n",
             trimmed := false, lastUpdated := some "2024-02-01T00:00:00Z" }])
      = mergeCardData parseIsoZ
        [{ cardId := "x1", cardName := "Dishes", assignment := 2, trimmed := 0,
           lastUpdated := "2024-06-01T00:00:00Z" },
         { cardId := "x2", cardName := "Laundry", assignment := 1, trimmed := 1,
           lastUpdated := "2023-01-01T00:00:00Z" }]
        [{ cardName := "Dishes", assignment := .player1, notes := "ok",
           trimmed := false, lastUpdated := some "2024-01-01T00:00:00Z" },
         { cardName := "Laundry", assignment := .shared, notes := "n",
           trimmed := false, lastUpdated := some "2024-02-01T00:00:00Z" }] :=
  C8_amended_newer_wins_idempotent parseIsoZ
    [{ cardId := "x1", cardName := "Dishes", assignment := 2, trimmed := 0,
       lastUpdated := "2024-06-01T00:00:00Z" },
     { cardId := "x2", cardName := "Laundry", assignment := 1, trimmed := 1,
       lastUpdated := "2023-01-01T00:00:00Z" }]
    [{ cardName := "Dishes", assignment := .player1, notes := "ok",
       trimmed := false, lastUpdated := some "2024-01-01T00:00:00Z" },
     { cardName := "Laundry", assignment := .shared, notes := "n",
       trimmed := false, lastUpdated := some "2024-02-01T00:00:00Z" }]
    (by decide)

/-- C4 counterexample: two sheet rows sharing one name make that name appear
twice in the merge output, refuting that every name present in an input
appears exactly once. -/
theorem C4_counterexample_duplicate_sheet_names :
    ((mergeCardData parseIsoZ
        [{ cardId := "a", cardName := "A", assignment := 0, trimmed := 0,
           lastUpdated := "2024-01-01T00:00:03Z" },
         { cardId := "b", cardName := "A", assignment := 0, trimmed := 0,
           lastUpdated := "2024-01-01T00:00:05Z" }]
        []).map CardData.cardName).count "A" = 2 := by decide

/-- Filtering with a predicate that holds on every card of the searched name
does not change that name's occurrence count. -/
lemma count_map_filter_eq (p : CardData → Bool) (L : List CardData) (n : String)
    (h : ∀ lc ∈ L, lc.cardName = n → p lc = true) :
    ((L.filter p).map CardData.cardName).count n
      = (L.map CardData.cardName).count n := by
  induction L with
  | nil => rfl
  | cons c L ih =>
      have htail := ih fun lc hlc => h lc (List.mem_cons_of_mem _ hlc)
      by_cases hc : c.cardName = n
      · rw [List.filter_cons_of_pos (h c (List.mem_cons_self _ _) hc)]
        simp [List.count_cons, hc, htail]
      · by_cases hp : p c = true
        · rw [List.filter_cons_of_pos hp]
          simp [List.count_cons, hc, htail]
        · rw [List.filter_cons_of_neg hp]
          simp [List.count_cons, hc, htail]

/-- C4 amended: the merge output always contains every input name — its length
is at least the number of distinct names across both inputs — and, when the
names within the sheet list and within the local list are each pairwise
distinct (the documented natural-key invariant), every name present in either
input appears exactly once in the output. -/
theorem C4_amended_merge_names (pt : String → Int) (R : List GoogleSheetCardData)
    (L : List CardData) :
    ((R.map GoogleSheetCardData.cardName ++ L.map CardData.cardName).dedup).length
      ≤ (mergeCardData pt R L).length
    ∧ ((R.map GoogleSheetCardData.cardName).Nodup → (L.map CardData.cardName).Nodup →
      ∀ n, (n ∈ R.map GoogleSheetCardData.cardName ∨ n ∈ L.map CardData.cardName) →
        ((mergeCardData pt R L).map CardData.cardName).count n = 1) := by
  have hnames : ∀ n, (n ∈ R.map GoogleSheetCardData.cardName
        ∨ n ∈ L.map CardData.cardName) →
      n ∈ (mergeCardData pt R L).map CardData.cardName := by
    intro n hn
    by_cases hR : n ∈ R.map GoogleSheetCardData.cardName
    · obtain ⟨sc, hsc, rfl⟩ := List.mem_map.mp hR
      refine List.mem_map.mpr ⟨mergeRow pt sc (lookupByName L sc.cardName), ?_,
        mergeRow_lookup_cardName pt sc L⟩
      exact List.mem_append_left _ (List.mem_map_of_mem _ hsc)
    · rcases hn with hn | hn
      · exact absurd hn hR
      obtain ⟨lc, hlc, rfl⟩ := List.mem_map.mp hn
      refine List.mem_map.mpr ⟨lc, List.mem_append_right _ ?_, rfl⟩
      refine List.mem_filter.mpr ⟨hlc, ?_⟩
      simp only [Bool.not_eq_true', List.any_eq_false]
      intro sc hsc
      rw [beq_iff_eq]
      intro hEq
      exact hR (hEq ▸ List.mem_map_of_mem _ hsc)
  constructor
  · have hsub : (R.map GoogleSheetCardData.cardName ++ L.map CardData.cardName).dedup
        ⊆ (mergeCardData pt R L).map CardData.cardName := by
      intro n hn
      rw [List.mem_dedup] at hn
      exact hnames n (List.mem_append.mp hn)
    have := ((List.nodup_dedup _).subperm hsub).length_le
    rwa [List.length_map] at this
  · intro hRn hLn n hn
    unfold mergeCardData
    rw [List.map_append, List.count_append, List.map_map]
    have hmapped : (R.map (CardData.cardName ∘ fun sheetCard =>
        mergeRow pt sheetCard (lookupByName L sheetCard.cardName)))
        = R.map GoogleSheetCardData.cardName :=
      List.map_congr_left fun sc _ => mergeRow_lookup_cardName pt sc L
    rw [hmapped]
    by_cases hR : n ∈ R.map GoogleSheetCardData.cardName
    · rw [List.count_eq_one_of_mem hRn hR]
      have hzero : ((L.filter fun localCard =>
          !(R.any fun sheetCard => sheetCard.cardName == localCard.cardName)).map
            CardData.cardName).count n = 0 := by
        rw [List.count_eq_zero]
        intro hmem
        obtain ⟨lc, hlc, rfl⟩ := List.mem_map.mp hmem
        obtain ⟨-, hP⟩ := List.mem_filter.mp hlc
        simp only [Bool.not_eq_true', List.any_eq_false] at hP
        obtain ⟨sc, hsc, hname⟩ := List.mem_map.mp hR
        have := hP sc hsc
        rw [hname] at this
        simp at this
      rw [hzero]
    · rcases hn with hn | hn
      · exact absurd hn hR
      rw [List.count_eq_zero.mpr hR, Nat.zero_add]
      rw [count_map_filter_eq _ _ _ ?_]
      · exact List.count_eq_one_of_mem hLn hn
      · intro lc hlc hname
        simp only [Bool.not_eq_true', List.any_eq_false]
        intro sc hsc
        rw [beq_iff_eq, hname]
        intro hEq
        exact hR (hEq ▸ List.mem_map_of_mem _ hsc)

/-- C4 amended witness: a concrete pair of inputs with distinct names within
each list — one shared name, one sheet-only name, one local-only name. -/
theorem C4_amended_merge_names_witness :
    ([ { cardId := "x1", cardName := "Dishes", assignment := 2, trimmed := 0,
          lastUpdated := "2024-06-01T00:00:00Z" },
        { cardId := "x2", cardName := "Trash", assignment := 1, trimmed := 0,
          lastUpdated := "2024-06-01T00:00:00Z" } ].map
        GoogleSheetCardData.cardName
      ++ [ ({ cardName := "Dishes", assignment := .player1, notes := "ok",
              trimmed := false, lastUpdated := some "2024-01-01T00:00:00Z" } : CardData),
           { cardName := "Laundry", assignment := .shared, notes := "n",
             trimmed := false, lastUpdated := some "2024-02-01T00:00:00Z" } ].map
        CardData.cardName).dedup.length
      ≤ (mergeCardData parseIsoZ
        [{ cardId := "x1", cardName := "Dishes", assignment := 2, trimmed := 0,
           lastUpdated := "2024-06-01T00:00:00Z" },
         { cardId := "x2", cardName := "Trash", assignment := 1, trimmed := 0,
           lastUpdated := "2024-06-01T00:00:00Z" }]
        [{ cardName := "Dishes", assignment := .player1, notes := "ok",
           trimmed := false, lastUpdated := some "2024-01-01T00:00:00Z" },
         { cardName := "Laundry", assignment := .shared, notes := "n",
           trimmed := false, lastUpdated := some "2024-02-01T00:00:00Z" }]).length
    ∧ ((mergeCardData parseIsoZ
        [{ cardId := "x1", cardName := "Dishes", assignment := 2, trimmed := 0,
           lastUpdated := "2024-06-01T00:00:00Z" },
         { cardId := "x2", cardName := "Trash", assignment := 1, trimmed := 0,
           lastUpdated := "2024-06-01T00:00:00Z" }]
        [{ cardName := "Dishes", assignment := .player1, notes := "ok",
           trimmed := false, lastUpdated := some "2024-01-01T00:00:00Z" },
         { cardName := "Laundry", assignment := .shared, notes := "n",
           trimmed := false, lastUpdated := some "2024-02-01T00:00:00Z" }]).map
        CardData.cardName).count "Laundry" = 1 :=
  ⟨(C4_amended_merge_names parseIsoZ
      [{ cardId := "x1", cardName := "Dishes", assignment := 2, trimmed := 0,
         lastUpdated := "2024-06-01T00:00:00Z" },
       { cardId := "x2", cardName := "Trash", assignment := 1, trimmed := 0,
         lastUpdated := "2024-06-01T00:00:00Z" }]
      [{ cardName := "Dishes", assignment := .player1, notes := "ok",
         trimmed := false, lastUpdated := some "2024-01-01T00:00:00Z" },
       { cardName := "Laundry", assignment := .shared, notes := "n",
         trimmed := false, lastUpdated := some "2024-02-01T00:00:00Z" }]).1,
   (C4_amended_merge_names parseIsoZ
      [{ cardId := "x1", cardName := "Dishes", assignment := 2, trimmed := 0,
         lastUpdated := "2024-06-01T00:00:00Z" },
       { cardId := "x2", cardName := "Trash", assignment := 1, trimmed := 0,
         lastUpdated := "2024-06-01T00:00:00Z" }]
      [{ cardName := "Dishes", assignment := .player1, notes := "ok",
         trimmed := false, lastUpdated := some "2024-01-01T00:00:00Z" },
       { cardName := "Laundry", assignment := .shared, notes := "n",
         trimmed := false, lastUpdated := some "2024-02-01T00:00:00Z" }]).2
    (by decide) (by decide) "Laundry" (Or.inr (by decide))⟩

end FairPlay
